import Mathlib

/-!
Verification of the persona-survey engine of the `social_listening` repository.

The development shallowly embeds the algorithmic core of the three source
variants (`app.py`, `run.py`, `world_listening_ja.py`): the
population-proportional allocator (`SpeciesPersonaGenerator.calculate_species_distribution`),
the cost ledger (`CostTracker`), the response providers
(`GPT4OMiniProvider.generate_response`, `summarize_search_results`,
`analyze_responses`, `SimulationProvider.generate_response`), the survey loop
(`execute_enhanced_survey`) and the sentiment analyzer
(`ResponseAnalyzer.analyze_sentiment`).

Modelling conventions:
- Python strings are `List Char` (one entry per code point, as Python `len`
  and slicing count code points).
- Python real arithmetic (float ratios, per-token dollar rates) is modelled
  exactly over `ℚ`; `int(N * population / total_population)` with
  non-negative operands is the rational floor, i.e. `Nat` division.
- Fallible operations return `Option`: `none` is a raised Python exception
  (`ZeroDivisionError` in the allocator and in `analyze_sentiment`).
- Randomness and the network boundary are inputs: the externally produced
  model text (or the raised transport error) is an `Except` argument, and
  the simulated provider's randomly chosen canned response is an argument.
-/

namespace SocialListening

/-! ### Population allocator

Embedding of `SpeciesPersonaGenerator.calculate_species_distribution`
(`world_listening_ja.py` lines 363-387, identical in `run.py` lines 422-446).
The species table is a finite association list `entity ↦ population`
(a Python dict iterated in insertion order). -/

/-- Stable insertion of one entry into a list sorted by descending population;
together with `sortPopDesc` this embeds
`species_list.sort(key=lambda x: x[1]['population'], reverse=True)`
(Python's sort is stable). -/
def insertPopDesc (x : String × Nat) : List (String × Nat) → List (String × Nat)
  | [] => [x]
  | y :: ys => if x.2 < y.2 then y :: insertPopDesc x ys else x :: y :: ys

/-- Stable sort by strictly descending population magnitude. -/
def sortPopDesc : List (String × Nat) → List (String × Nat)
  | [] => []
  | x :: xs => insertPopDesc x (sortPopDesc xs)

/-- Embeds `total_population = sum(data['population'] for data in ...species_population.values())`. -/
def total_population (table : List (String × Nat)) : Nat :=
  (table.map Prod.snd).sum

/-- Embeds the `for species, data in species_list[:-1]` loop of
`calculate_species_distribution`.  `k` is `len(species_list)`, `dist` is the
`species_distribution` dict built so far (insertion order), `remaining` is
`remaining_personas` (a Python int, so `Int`).  The body first computes
`ratio = data['population'] / total_population`, which raises
`ZeroDivisionError` when the total population is zero: that raise is the
`none` branch.  `count = max(1, min(int(total_personas * ratio),
remaining_personas - (len(species_list) - len(species_distribution) - 1)))`,
and the assignment happens only under `if remaining_personas > 0`. -/
def allocGo (N totalPop k : Nat) :
    List (String × Nat) → Int → List (String × Int) → Option (List (String × Int) × Int)
  | [], remaining, dist => some (dist, remaining)
  | (species, pop) :: rest, remaining, dist =>
    if totalPop = 0 then none
    else
      let count : Int := max 1 (min ((N * pop / totalPop : Nat) : Int)
        (remaining - ((k : Int) - (dist.length : Int) - 1)))
      if 0 < remaining then
        allocGo N totalPop k rest (remaining - count) (dist ++ [(species, count)])
      else
        allocGo N totalPop k rest remaining dist

/-- Embeds `SpeciesPersonaGenerator.calculate_species_distribution`: sort the
table by descending population, run the loop over `species_list[:-1]`, then
`if species_list and remaining_personas > 0:` assign all remaining budget to
the last (smallest-population) species. -/
def calculate_species_distribution (table : List (String × Nat)) (total_personas : Nat) :
    Option (List (String × Int)) :=
  let totalPop := total_population table
  let species_list := sortPopDesc table
  match allocGo total_personas totalPop species_list.length species_list.dropLast
      (total_personas : Int) [] with
  | none => none
  | some (dist, remaining) =>
    match species_list.getLast? with
    | some last => if 0 < remaining then some (dist ++ [(last.1, remaining)]) else some dist
    | none => some dist

/-! Reference (spec-level) allocators, to be compared with the embedding. -/

/-- Modelled from the claim's words, amended loop: for each entity except the
last, `count = max(1, min(floor(N * pop / total), remaining - after))` where
`after` is the number of still-unprocessed entities EXCLUDING the current one
(the entities after it in the sorted order, the final remainder sink
included); the count is assigned only while the remaining budget is
positive. -/
def amendedAllocGo (N totalPop : Nat) :
    List (String × Nat) → Int → List (String × Int) × Int
  | [], remaining => ([], remaining)
  | (species, pop) :: rest, remaining =>
    if 0 < remaining then
      let count : Int := max 1 (min ((N * pop / totalPop : Nat) : Int)
        (remaining - ((rest.length : Int) + 1)))
      let res := amendedAllocGo N totalPop rest (remaining - count)
      ((species, count) :: res.1, res.2)
    else
      amendedAllocGo N totalPop rest remaining

/-- Spec-level description of the allocator with the amended reservation term
(`amendedAllocGo`); the last entity receives the whole remaining budget when
that budget is positive. -/
def amended_allocation (table : List (String × Nat)) (N : Nat) : List (String × Int) :=
  let totalPop := total_population table
  let species_list := sortPopDesc table
  let res := amendedAllocGo N totalPop species_list.dropLast (N : Int)
  match species_list.getLast? with
  | some last => if 0 < res.2 then res.1 ++ [(last.1, res.2)] else res.1
  | none => res.1

/-- Modelled from the claim C2's words as stated: for each entity except the
last, `count = max(1, min(floor(N * pop / total), remaining - left))` where
`left` is the number of still-unprocessed entities INCLUDING the current one
(current + later loop entities + the final sink, i.e. `rest.length + 2`);
every entity is assigned and the last entity then receives all remaining
budget. -/
def claimAllocGo (N totalPop : Nat) :
    List (String × Nat) → Int → List (String × Int) × Int
  | [], remaining => ([], remaining)
  | (species, pop) :: rest, remaining =>
    let count : Int := max 1 (min ((N * pop / totalPop : Nat) : Int)
      (remaining - ((rest.length : Int) + 2)))
    let res := claimAllocGo N totalPop rest (remaining - count)
    ((species, count) :: res.1, res.2)

/-- Allocation described by claim C2 as literally stated (reservation term
counts the current entity as well). -/
def claim_allocation (table : List (String × Nat)) (N : Nat) : List (String × Int) :=
  let totalPop := total_population table
  let species_list := sortPopDesc table
  let res := claimAllocGo N totalPop species_list.dropLast (N : Int)
  match species_list.getLast? with
  | some last => res.1 ++ [(last.1, res.2)]
  | none => res.1

/-! ### Allocator lemmas -/

theorem insertPopDesc_perm (x : String × Nat) (l : List (String × Nat)) :
    (insertPopDesc x l).Perm (x :: l) := by
  induction l with
  | nil => simp [insertPopDesc]
  | cons y ys ih =>
    simp only [insertPopDesc]
    split
    · exact (ih.cons y).trans (List.Perm.swap x y ys)
    · exact List.Perm.refl _

theorem sortPopDesc_perm (l : List (String × Nat)) : (sortPopDesc l).Perm l := by
  induction l with
  | nil => exact List.Perm.refl _
  | cons x xs ih => exact (insertPopDesc_perm x _).trans (ih.cons x)

theorem sortPopDesc_length (l : List (String × Nat)) : (sortPopDesc l).length = l.length :=
  (sortPopDesc_perm l).length_eq

theorem sortPopDesc_ne_nil {l : List (String × Nat)} (h : l ≠ []) : sortPopDesc l ≠ [] := by
  intro hs
  apply h
  have hl := sortPopDesc_length l
  rw [hs] at hl
  exact List.eq_nil_of_length_eq_zero hl.symm

theorem allocGo_nil (N totalPop k : Nat) (r : Int) (d : List (String × Int)) :
    allocGo N totalPop k [] r d = some (d, r) := rfl

theorem allocGo_cons (N totalPop k : Nat) (hpop : totalPop ≠ 0) (species : String) (pop : Nat)
    (rest : List (String × Nat)) (r : Int) (d : List (String × Int)) :
    allocGo N totalPop k ((species, pop) :: rest) r d =
      if 0 < r then
        allocGo N totalPop k rest
          (r - max 1 (min ((N * pop / totalPop : Nat) : Int)
            (r - ((k : Int) - (d.length : Int) - 1))))
          (d ++ [(species, max 1 (min ((N * pop / totalPop : Nat) : Int)
            (r - ((k : Int) - (d.length : Int) - 1))))])
      else allocGo N totalPop k rest r d := by
  simp [allocGo, hpop]

theorem amendedAllocGo_nil (N totalPop : Nat) (r : Int) :
    amendedAllocGo N totalPop [] r = ([], r) := rfl

theorem amendedAllocGo_cons (N totalPop : Nat) (species : String) (pop : Nat)
    (rest : List (String × Nat)) (r : Int) :
    amendedAllocGo N totalPop ((species, pop) :: rest) r =
      if 0 < r then
        ((species, max 1 (min ((N * pop / totalPop : Nat) : Int)
            (r - ((rest.length : Int) + 1)))) ::
          (amendedAllocGo N totalPop rest
            (r - max 1 (min ((N * pop / totalPop : Nat) : Int)
              (r - ((rest.length : Int) + 1))))).1,
         (amendedAllocGo N totalPop rest
            (r - max 1 (min ((N * pop / totalPop : Nat) : Int)
              (r - ((rest.length : Int) + 1))))).2)
      else amendedAllocGo N totalPop rest r := by
  simp [amendedAllocGo]

/-- The source loop (tracking `len(species_list) - len(species_distribution) - 1`)
computes the same distribution as the spec-level loop that counts the entities
after the current one directly, as long as the length bookkeeping invariant
holds (or the budget is already exhausted, in which case nothing more is
assigned on either side). -/
theorem allocGo_eq_amendedAllocGo (N totalPop k : Nat) (hpop : totalPop ≠ 0)
    (l : List (String × Nat)) : ∀ (r : Int) (d : List (String × Int)),
    ((k : Int) = d.length + l.length + 1 ∨ r ≤ 0) →
    allocGo N totalPop k l r d =
      some (d ++ (amendedAllocGo N totalPop l r).1, (amendedAllocGo N totalPop l r).2) := by
  induction l with
  | nil => intro r d _; simp [allocGo_nil, amendedAllocGo_nil]
  | cons x rest ih =>
    obtain ⟨species, pop⟩ := x
    intro r d hinv
    rw [allocGo_cons N totalPop k hpop, amendedAllocGo_cons]
    by_cases hr : 0 < r
    · have hkd : (k : Int) = (d.length : Int) + ((rest.length : Int) + 1) + 1 := by
        rcases hinv with h | h
        · simp only [List.length_cons] at h
          push_cast at h ⊢
          omega
        · omega
      have hk : r - ((k : Int) - (d.length : Int) - 1) = r - ((rest.length : Int) + 1) := by
        omega
      rw [if_pos hr, if_pos hr, hk]
      rw [ih _ _ (Or.inl (by
        simp only [List.length_append, List.length_cons, List.length_nil]
        push_cast
        omega))]
      simp

    · rw [if_neg hr, if_neg hr]
      exact ih r d (Or.inr (by omega))

/-- In the regime where the budget is at least the number of loop entities
plus one (reserving one for the final sink), every loop entity is assigned a
count of at least one, the assigned counts take exactly the budget that is no
longer remaining, and at least one unit of budget remains for the sink. -/
theorem amendedAllocGo_full (N totalPop : Nat) (l : List (String × Nat)) :
    ∀ r : Int, (l.length : Int) + 1 ≤ r →
      ((amendedAllocGo N totalPop l r).1.map Prod.fst = l.map Prod.fst ∧
        (∀ e ∈ (amendedAllocGo N totalPop l r).1, 1 ≤ e.2) ∧
        ((amendedAllocGo N totalPop l r).1.map Prod.snd).sum =
          r - (amendedAllocGo N totalPop l r).2 ∧
        1 ≤ (amendedAllocGo N totalPop l r).2) := by
  induction l with
  | nil =>
    intro r hr
    exact ⟨rfl, by simp [amendedAllocGo_nil], by simp [amendedAllocGo_nil],
      by simpa [amendedAllocGo_nil] using hr⟩
  | cons x rest ih =>
    obtain ⟨species, pop⟩ := x
    intro r hr
    have hr' : ((rest.length : Int) + 1) + 1 ≤ r := by
      simp only [List.length_cons] at hr
      push_cast at hr
      omega
    have hr0 : 0 < r := by omega
    rw [amendedAllocGo_cons, if_pos hr0]
    set C : Int := max 1 (min ((N * pop / totalPop : Nat) : Int)
      (r - ((rest.length : Int) + 1))) with hCdef
    have hC1 : 1 ≤ C := le_max_left _ _
    have hCub : C ≤ r - ((rest.length : Int) + 1) := by
      apply max_le
      · omega
      · exact min_le_right _ _
    obtain ⟨hmap, hmem, hsum, hrem⟩ := ih (r - C) (by omega)
    refine ⟨by simpa using hmap, ?_, ?_, hrem⟩
    · intro e he
      rcases List.mem_cons.mp he with h | h
      · rw [h]; exact hC1
      · exact hmem e h
    · simp only [List.map_cons, List.sum_cons]
      omega

/-- For any non-negative budget the assigned counts always sum to exactly the
budget consumed, and the remaining budget never becomes negative. -/
theorem amendedAllocGo_sum (N totalPop : Nat) (l : List (String × Nat)) :
    ∀ r : Int, 0 ≤ r →
      (((amendedAllocGo N totalPop l r).1.map Prod.snd).sum =
          r - (amendedAllocGo N totalPop l r).2 ∧
        0 ≤ (amendedAllocGo N totalPop l r).2) := by
  induction l with
  | nil =>
    intro r hr
    simp only [amendedAllocGo_nil, List.map_nil, List.sum_nil]
    omega
  | cons x rest ih =>
    obtain ⟨species, pop⟩ := x
    intro r hr
    by_cases hr0 : 0 < r
    · rw [amendedAllocGo_cons, if_pos hr0]
      set C : Int := max 1 (min ((N * pop / totalPop : Nat) : Int)
        (r - ((rest.length : Int) + 1))) with hCdef
      have hCle : C ≤ r := by
        have h2 : min ((N * pop / totalPop : Nat) : Int) (r - ((rest.length : Int) + 1)) ≤
            r - ((rest.length : Int) + 1) := min_le_right _ _
        have h3 : (0 : Int) ≤ (rest.length : Int) := by positivity
        apply max_le <;> omega
      obtain ⟨hsum, hrem⟩ := ih (r - C) (by omega)
      refine ⟨?_, hrem⟩
      simp only [List.map_cons, List.sum_cons]
      omega
    · rw [amendedAllocGo_cons, if_neg hr0]
      exact ih r hr

/-- Under a non-zero total population the embedded source allocator never
raises and agrees with the spec-level amended description. -/
theorem calculate_eq_amended_core (table : List (String × Nat)) (N : Nat)
    (hpop : total_population table ≠ 0) :
    calculate_species_distribution table N = some (amended_allocation table N) := by
  simp only [calculate_species_distribution, amended_allocation]
  by_cases htab : sortPopDesc table = []
  · rw [htab]
    simp [allocGo_nil, amendedAllocGo_nil]
  · have h1 : 0 < (sortPopDesc table).length := List.length_pos.mpr htab
    have hlen : (sortPopDesc table).length = (sortPopDesc table).dropLast.length + 1 := by
      simp only [List.length_dropLast]
      omega
    rw [allocGo_eq_amendedAllocGo N _ _ hpop _ _ _
      (Or.inl (by simp only [List.length_nil, Nat.cast_zero]; rw [hlen]; push_cast; ring))]
    cases hgl : (sortPopDesc table).getLast? with
    | none => simp
    | some last =>
      by_cases hrem :
        0 < (amendedAllocGo N (total_population table) (sortPopDesc table).dropLast (N : Int)).2
      · simp [hrem]
      · simp [hrem]

/-- With a non-empty table and a requested total at least the number of
entities, the amended spec-level allocation covers every entity exactly once
(its keys are a permutation of the table's keys), sums to the requested
total, and gives every entity at least one. -/
theorem amended_allocation_covers (table : List (String × Nat)) (N : Nat)
    (hne : table ≠ []) (hN : table.length ≤ N) :
    ((amended_allocation table N).map Prod.fst).Perm (table.map Prod.fst) ∧
    ((amended_allocation table N).map Prod.snd).sum = (N : Int) ∧
    ∀ e ∈ amended_allocation table N, 1 ≤ e.2 := by
  have hsne : sortPopDesc table ≠ [] := sortPopDesc_ne_nil hne
  have h1 : 0 < (sortPopDesc table).length := List.length_pos.mpr hsne
  have hklen : (sortPopDesc table).length = table.length := sortPopDesc_length table
  have hdl : (sortPopDesc table).dropLast.length = (sortPopDesc table).length - 1 :=
    List.length_dropLast _
  have hbud : ((sortPopDesc table).dropLast.length : Int) + 1 ≤ (N : Int) := by
    have hb : (sortPopDesc table).dropLast.length + 1 ≤ N := by omega
    exact_mod_cast hb
  obtain ⟨hmap, hmem, hsum, hrem⟩ :=
    amendedAllocGo_full N (total_population table) (sortPopDesc table).dropLast (N : Int) hbud
  have hgl : (sortPopDesc table).getLast? = some ((sortPopDesc table).getLast hsne) :=
    List.getLast?_eq_getLast_of_ne_nil hsne
  have halloc : amended_allocation table N =
      (amendedAllocGo N (total_population table) (sortPopDesc table).dropLast (N : Int)).1 ++
        [(((sortPopDesc table).getLast hsne).1,
          (amendedAllocGo N (total_population table) (sortPopDesc table).dropLast (N : Int)).2)] := by
    simp only [amended_allocation, hgl]
    rw [if_pos (by omega)]
  rw [halloc]
  refine ⟨?_, ?_, ?_⟩
  · have hfst :
        ((amendedAllocGo N (total_population table) (sortPopDesc table).dropLast (N : Int)).1 ++
          [(((sortPopDesc table).getLast hsne).1,
            (amendedAllocGo N (total_population table) (sortPopDesc table).dropLast (N : Int)).2)]).map
              Prod.fst =
        ((sortPopDesc table).dropLast ++ [(sortPopDesc table).getLast hsne]).map Prod.fst := by
      simp [hmap]
    rw [hfst, List.dropLast_append_getLast hsne]
    exact (sortPopDesc_perm table).map Prod.fst
  · rw [List.map_append, List.sum_append]
    simp only [List.map_cons, List.map_nil, List.sum_cons, List.sum_nil]
    omega
  · intro e he
    rcases List.mem_append.mp he with h | h
    · exact hmem e h
    · rw [List.mem_singleton.mp h]
      exact hrem

/-- For any non-empty table the amended spec-level allocation sums exactly
to the requested total, with no lower bound on that total. -/
theorem amended_allocation_sum (table : List (String × Nat)) (N : Nat) (hne : table ≠ []) :
    ((amended_allocation table N).map Prod.snd).sum = (N : Int) := by
  have hsne : sortPopDesc table ≠ [] := sortPopDesc_ne_nil hne
  obtain ⟨hsum, hrem⟩ := amendedAllocGo_sum N (total_population table)
    (sortPopDesc table).dropLast (N : Int) (Int.natCast_nonneg N)
  have hgl : (sortPopDesc table).getLast? = some ((sortPopDesc table).getLast hsne) :=
    List.getLast?_eq_getLast_of_ne_nil hsne
  by_cases h2 :
      0 < (amendedAllocGo N (total_population table) (sortPopDesc table).dropLast (N : Int)).2
  · simp only [amended_allocation, hgl, if_pos h2]
    rw [List.map_append, List.sum_append]
    simp only [List.map_cons, List.map_nil, List.sum_cons, List.sum_nil]
    omega
  · simp only [amended_allocation, hgl, if_neg h2]
    omega

/-! ### Claim theorems for the allocator -/

/-- C1 (amended: the populations must not all be zero, i.e. the total
population is positive — otherwise the source raises `ZeroDivisionError`):
for every population table with at least one entity, positive total
population, and every requested total `N` at least the number of entities,
`calculate_species_distribution` returns an allocation with exactly one
entry per distinct entity (its keys are a permutation of the table's keys),
whose counts sum exactly to `N`, and in which every entity receives at
least 1. -/
theorem allocator_exact_cover (table : List (String × Nat)) (N : Nat)
    (hne : table ≠ []) (hpop : 0 < total_population table) (hN : table.length ≤ N) :
    ∃ alloc, calculate_species_distribution table N = some alloc ∧
      (alloc.map Prod.fst).Perm (table.map Prod.fst) ∧
      (alloc.map Prod.snd).sum = (N : Int) ∧
      ∀ e ∈ alloc, 1 ≤ e.2 := by
  obtain ⟨h1, h2, h3⟩ := amended_allocation_covers table N hne hN
  exact ⟨amended_allocation table N, calculate_eq_amended_core table N (by omega), h1, h2, h3⟩

/-- C1 witness: concrete instance of `allocator_exact_cover` on the table
`A ↦ 3, B ↦ 1` with requested total 4. -/
theorem allocator_exact_cover_witness :
    ([("A", 3), ("B", 1)] : List (String × Nat)) ≠ [] ∧
    0 < total_population [("A", 3), ("B", 1)] ∧
    ([("A", 3), ("B", 1)] : List (String × Nat)).length ≤ 4 ∧
    ∃ alloc, calculate_species_distribution [("A", 3), ("B", 1)] 4 = some alloc ∧
      (alloc.map Prod.fst).Perm ([("A", 3), ("B", 1)].map Prod.fst) ∧
      (alloc.map Prod.snd).sum = (4 : Int) ∧
      ∀ e ∈ alloc, 1 ≤ e.2 :=
  ⟨by decide, by decide, by decide,
    allocator_exact_cover [("A", 3), ("B", 1)] 4 (by decide) (by decide) (by decide)⟩

/-- C1 counterexample: the table `A ↦ 0, B ↦ 0` has at least one entity and
the requested total 2 is at least the number of entities, yet the source
raises `ZeroDivisionError` at `ratio = population / total_population`
(embedded result `none`), so no allocation at all is returned. -/
theorem allocator_zero_population_counterexample :
    ([("A", 0), ("B", 0)] : List (String × Nat)) ≠ [] ∧
    ([("A", 0), ("B", 0)] : List (String × Nat)).length ≤ 2 ∧
    calculate_species_distribution [("A", 0), ("B", 0)] 2 = none := by decide

/-- C2 (amended: the reservation term subtracts the number of
still-unprocessed entities EXCLUDING the current one, i.e. the entities
strictly after it in the sorted order with the final remainder sink
included; counts are only assigned while the remaining budget is positive,
and the last entity receives the remaining budget when it is positive;
populations must not all be zero): the source allocator equals the
spec-level amended allocation. -/
theorem allocator_matches_amended_formula (table : List (String × Nat)) (N : Nat)
    (hpop : 0 < total_population table) :
    calculate_species_distribution table N = some (amended_allocation table N) :=
  calculate_eq_amended_core table N (by omega)

/-- C2 witness: concrete instance of `allocator_matches_amended_formula` on
the table `A ↦ 1000, B ↦ 1, C ↦ 1` with requested total 7. -/
theorem allocator_matches_amended_formula_witness :
    0 < total_population [("A", 1000), ("B", 1), ("C", 1)] ∧
    calculate_species_distribution [("A", 1000), ("B", 1), ("C", 1)] 7 =
      some (amended_allocation [("A", 1000), ("B", 1), ("C", 1)] 7) :=
  ⟨by decide, allocator_matches_amended_formula [("A", 1000), ("B", 1), ("C", 1)] 7 (by decide)⟩

/-- C2 counterexample: on the table `A ↦ 1000, B ↦ 1, C ↦ 1` with requested
total 5 the claim's literal formula (reservation term counting the current
entity as well) yields `A ↦ 2, B ↦ 1, C ↦ 2`, while the source code yields
`A ↦ 3, B ↦ 1, C ↦ 1`, so the code does not assign the counts the claim
states. -/
theorem allocator_claim_formula_counterexample :
    claim_allocation [("A", 1000), ("B", 1), ("C", 1)] 5 = [("A", 2), ("B", 1), ("C", 2)] ∧
    calculate_species_distribution [("A", 1000), ("B", 1), ("C", 1)] 5 =
      some [("A", 3), ("B", 1), ("C", 1)] ∧
    calculate_species_distribution [("A", 1000), ("B", 1), ("C", 1)] 5 ≠
      some (claim_allocation [("A", 1000), ("B", 1), ("C", 1)] 5) := by decide

/-- C3 (amended: the populations must not all be zero, otherwise the source
raises `ZeroDivisionError`): when the requested total `N` is smaller than
the number of distinct entities, the allocator still terminates without
raising (the embedded result is `some`) and the returned counts sum exactly
to `N`. -/
theorem allocator_underflow_sums (table : List (String × Nat)) (N : Nat)
    (hpop : 0 < total_population table) (hN : N < table.length) :
    ∃ alloc, calculate_species_distribution table N = some alloc ∧
      (alloc.map Prod.snd).sum = (N : Int) := by
  have hne : table ≠ [] := by
    intro h
    rw [h] at hN
    simp at hN
  exact ⟨amended_allocation table N, calculate_eq_amended_core table N (by omega),
    amended_allocation_sum table N hne⟩

/-- C3 witness: concrete instance of `allocator_underflow_sums` on the table
`A ↦ 5, B ↦ 2, C ↦ 1` with requested total 2 (smaller than 3 entities). -/
theorem allocator_underflow_sums_witness :
    0 < total_population [("A", 5), ("B", 2), ("C", 1)] ∧
    2 < ([("A", 5), ("B", 2), ("C", 1)] : List (String × Nat)).length ∧
    ∃ alloc, calculate_species_distribution [("A", 5), ("B", 2), ("C", 1)] 2 = some alloc ∧
      (alloc.map Prod.snd).sum = (2 : Int) :=
  ⟨by decide, by decide,
    allocator_underflow_sums [("A", 5), ("B", 2), ("C", 1)] 2 (by decide) (by decide)⟩

/-- C3 counterexample: with the all-zero table `A ↦ 0, B ↦ 0` and requested
total 1 (smaller than the 2 entities) the source raises `ZeroDivisionError`
(embedded result `none`) instead of returning an allocation summing to 1. -/
theorem allocator_underflow_zero_population_counterexample :
    1 < ([("A", 0), ("B", 0)] : List (String × Nat)).length ∧
    calculate_species_distribution [("A", 0), ("B", 0)] 1 = none := by decide

/-! ### Cost ledger

Embedding of `CostTracker` (`app.py` lines 230-257, byte-identical in
`world_listening_ja.py` lines 532-559).  Token counts are string lengths or
API-reported counts at every call site, hence `Nat`; the per-1000-token
dollar rates and derived costs are exact rationals. -/

structure CostTracker where
  total_input_tokens : Nat
  total_output_tokens : Nat
  gpt4o_mini_input_cost : ℚ
  gpt4o_mini_output_cost : ℚ
  requests_count : Nat
deriving DecidableEq

/-- Embeds `CostTracker.__init__`. -/
def CostTracker.init : CostTracker where
  total_input_tokens := 0
  total_output_tokens := 0
  gpt4o_mini_input_cost := 0.00015
  gpt4o_mini_output_cost := 0.0006
  requests_count := 0

/-- Embeds `CostTracker.add_usage`: increments the two token totals and the
request counter, touching nothing else. -/
def CostTracker.add_usage (c : CostTracker) (input_tokens output_tokens : Nat) : CostTracker :=
  { c with
    total_input_tokens := c.total_input_tokens + input_tokens
    total_output_tokens := c.total_output_tokens + output_tokens
    requests_count := c.requests_count + 1 }

/-- Embeds `CostTracker.get_total_cost`: recomputed from the current totals
on every call (the class stores no cost field). -/
def CostTracker.get_total_cost (c : CostTracker) : ℚ :=
  let input_cost := ((c.total_input_tokens : ℚ) / 1000) * c.gpt4o_mini_input_cost
  let output_cost := ((c.total_output_tokens : ℚ) / 1000) * c.gpt4o_mini_output_cost
  input_cost + output_cost

/-- Result shape of `CostTracker.get_cost_summary`. -/
structure CostSummary where
  total_input_tokens : Nat
  total_output_tokens : Nat
  total_tokens : Nat
  requests_count : Nat
  total_cost_usd : ℚ
  total_cost_jpy : ℚ
deriving DecidableEq

/-- Embeds `CostTracker.get_cost_summary` (read-only). -/
def CostTracker.get_cost_summary (c : CostTracker) : CostSummary :=
  let total_cost_usd := c.get_total_cost
  { total_input_tokens := c.total_input_tokens
    total_output_tokens := c.total_output_tokens
    total_tokens := c.total_input_tokens + c.total_output_tokens
    requests_count := c.requests_count
    total_cost_usd := total_cost_usd
    total_cost_jpy := total_cost_usd * 150 }

/-- The complete post-construction operation surface of the `CostTracker`
class: the mutator `add_usage` and the two read-only accessors. -/
inductive TrackerOp where
  | addUsage (input_tokens output_tokens : Nat)
  | getTotalCost
  | getCostSummary

/-- State transition of one operation: `add_usage` mutates the totals, the
accessors only read (their return values have no effect on the state). -/
def TrackerOp.apply (c : CostTracker) : TrackerOp → CostTracker
  | .addUsage i o => c.add_usage i o
  | .getTotalCost => c
  | .getCostSummary => c

/-- A whole lifetime of a tracker: any sequence of operations in order. -/
def runTrackerOps (c : CostTracker) (ops : List TrackerOp) : CostTracker :=
  ops.foldl TrackerOp.apply c

/-- C4: calling `add_usage(100, 50)` twice on a fresh `CostTracker` yields
`total_input_tokens = 200`, `total_output_tokens = 100`,
`requests_count = 2`; and `get_total_cost` always returns exactly
`(total_input_tokens/1000) * input_rate + (total_output_tokens/1000) *
output_rate` recomputed from the current totals — in particular immediately
after any further `add_usage` it reflects the updated totals, with no cached
value anywhere in the state. -/
theorem cost_tracker_accumulates :
    (((CostTracker.init.add_usage 100 50).add_usage 100 50).total_input_tokens = 200 ∧
      ((CostTracker.init.add_usage 100 50).add_usage 100 50).total_output_tokens = 100 ∧
      ((CostTracker.init.add_usage 100 50).add_usage 100 50).requests_count = 2) ∧
    (∀ c : CostTracker, c.get_total_cost =
      ((c.total_input_tokens : ℚ) / 1000) * c.gpt4o_mini_input_cost +
        ((c.total_output_tokens : ℚ) / 1000) * c.gpt4o_mini_output_cost) ∧
    (∀ (c : CostTracker) (i o : Nat), (c.add_usage i o).get_total_cost =
      (((c.total_input_tokens + i : Nat) : ℚ) / 1000) * c.gpt4o_mini_input_cost +
        (((c.total_output_tokens + o : Nat) : ℚ) / 1000) * c.gpt4o_mini_output_cost) :=
  ⟨⟨rfl, rfl, rfl⟩, fun _ => rfl, fun _ _ _ => rfl⟩

/-- C9: over every sequence of operations on one `CostTracker` the running
totals `total_input_tokens`, `total_output_tokens` and `requests_count` are
monotonically non-decreasing — no operation of the class decreases any of
them. -/
theorem cost_tracker_monotone (c : CostTracker) (ops : List TrackerOp) :
    c.total_input_tokens ≤ (runTrackerOps c ops).total_input_tokens ∧
    c.total_output_tokens ≤ (runTrackerOps c ops).total_output_tokens ∧
    c.requests_count ≤ (runTrackerOps c ops).requests_count := by
  induction ops generalizing c with
  | nil => exact ⟨le_refl _, le_refl _, le_refl _⟩
  | cons op rest ih =>
    obtain ⟨h1, h2, h3⟩ := ih (TrackerOp.apply c op)
    have hmono : c.total_input_tokens ≤ (TrackerOp.apply c op).total_input_tokens ∧
        c.total_output_tokens ≤ (TrackerOp.apply c op).total_output_tokens ∧
        c.requests_count ≤ (TrackerOp.apply c op).requests_count := by
      cases op with
      | addUsage i o => exact ⟨Nat.le_add_right _ _, Nat.le_add_right _ _, Nat.le_succ _⟩
      | getTotalCost => exact ⟨le_refl _, le_refl _, le_refl _⟩
      | getCostSummary => exact ⟨le_refl _, le_refl _, le_refl _⟩
    simp only [runTrackerOps, List.foldl_cons] at h1 h2 h3 ⊢
    exact ⟨hmono.1.trans h1, hmono.2.1.trans h2, hmono.2.2.trans h3⟩

/-! ### Response providers

Embedding of `GPT4OMiniProvider` (`app.py` lines 361-497) and
`SimulationProvider.generate_response` (`world_listening_ja.py` lines
924-960).  Python strings are `List Char`; prompt construction (pure
f-string formatting of persona attributes, outside the algorithmic core) is
abstracted as the already-built `prompt` argument, and the network boundary
is the `outcome` argument: `Except.ok raw` carries the model text
`response.choices[0].message.content`, `Except.error e` the message
`str(e)` of the raised transport/timeout exception. -/

/-- Embeds Python `str.strip()`: whitespace removed from both ends. -/
def pyStrip (s : List Char) : List Char :=
  ((s.dropWhile Char.isWhitespace).reverse.dropWhile Char.isWhitespace).reverse

/-- Embeds `EnhancedPromptGenerator.count_tokens` in its
tiktoken-unavailable fallback branch, `len(text) // 3` (`app.py` line 358;
the tiktoken path delegates to an external tokenizer outside this core). -/
def count_tokens (text : List Char) : Nat := text.length / 3

/-- Result dict of a provider operation:
`{'success', 'response'/'summary'/'analysis' (here uniformly `text`),
'input_tokens', 'output_tokens', 'cost_usd'}` plus the `'error'` key that is
present only on failure. -/
structure GenResult where
  success : Bool
  text : List Char
  input_tokens : Nat
  output_tokens : Nat
  cost_usd : ℚ
  error : Option (List Char)
deriving DecidableEq

namespace GPT4OMiniProvider

/-- Embeds `GPT4OMiniProvider.generate_response` (`app.py` lines 370-411):
strip the model text, cap it at 100 characters (`[:97] + "..."`), count
tokens, record usage; on any exception record the input-token usage with
zero output tokens and embed `f"APIエラー: str(e)[:50]..."` in the response
field.  Both branches return a record: no exception escapes. -/
def generate_response (tracker : CostTracker) (prompt : List Char)
    (outcome : Except (List Char) (List Char)) : GenResult × CostTracker :=
  let input_tokens := count_tokens prompt
  match outcome with
  | .ok raw =>
    let stripped := pyStrip raw
    let response_text :=
      if 100 < stripped.length then stripped.take 97 ++ ['.', '.', '.'] else stripped
    let output_tokens := count_tokens response_text
    ({ success := true
       text := response_text
       input_tokens := input_tokens
       output_tokens := output_tokens
       cost_usd := ((input_tokens : ℚ) * 0.00015 + (output_tokens : ℚ) * 0.0006) / 1000
       error := none },
      tracker.add_usage input_tokens output_tokens)
  | .error e =>
    ({ success := false
       text := "APIエラー: ".toList ++ e.take 50 ++ ['.', '.', '.']
       input_tokens := input_tokens
       output_tokens := 0
       cost_usd := (input_tokens : ℚ) * 0.00015 / 1000
       error := some e },
      tracker.add_usage input_tokens 0)

/-- Embeds `GPT4OMiniProvider.summarize_search_results` (`app.py` lines
413-455): identical contract with a 300-character cap (`[:297] + "..."`)
and the failure text `f"要約エラー: str(e)[:50]..."`. -/
def summarize_search_results (tracker : CostTracker) (prompt : List Char)
    (outcome : Except (List Char) (List Char)) : GenResult × CostTracker :=
  let input_tokens := count_tokens prompt
  match outcome with
  | .ok raw =>
    let stripped := pyStrip raw
    let summary_text :=
      if 300 < stripped.length then stripped.take 297 ++ ['.', '.', '.'] else stripped
    let output_tokens := count_tokens summary_text
    ({ success := true
       text := summary_text
       input_tokens := input_tokens
       output_tokens := output_tokens
       cost_usd := ((input_tokens : ℚ) * 0.00015 + (output_tokens : ℚ) * 0.0006) / 1000
       error := none },
      tracker.add_usage input_tokens output_tokens)
  | .error e =>
    ({ success := false
       text := "要約エラー: ".toList ++ e.take 50 ++ ['.', '.', '.']
       input_tokens := input_tokens
       output_tokens := 0
       cost_usd := (input_tokens : ℚ) * 0.00015 / 1000
       error := some e },
      tracker.add_usage input_tokens 0)

/-- Embeds `GPT4OMiniProvider.analyze_responses` (`app.py` lines 457-497):
identical contract with a 3600-character cap (`[:3597] + "..."`) and the
failure text `f"分析エラー: str(e)[:50]..."`. -/
def analyze_responses (tracker : CostTracker) (prompt : List Char)
    (outcome : Except (List Char) (List Char)) : GenResult × CostTracker :=
  let input_tokens := count_tokens prompt
  match outcome with
  | .ok raw =>
    let stripped := pyStrip raw
    let analysis_text :=
      if 3600 < stripped.length then stripped.take 3597 ++ ['.', '.', '.'] else stripped
    let output_tokens := count_tokens analysis_text
    ({ success := true
       text := analysis_text
       input_tokens := input_tokens
       output_tokens := output_tokens
       cost_usd := ((input_tokens : ℚ) * 0.00015 + (output_tokens : ℚ) * 0.0006) / 1000
       error := none },
      tracker.add_usage input_tokens output_tokens)
  | .error e =>
    ({ success := false
       text := "分析エラー: ".toList ++ e.take 50 ++ ['.', '.', '.']
       input_tokens := input_tokens
       output_tokens := 0
       cost_usd := (input_tokens : ℚ) * 0.00015 / 1000
       error := some e },
      tracker.add_usage input_tokens 0)

end GPT4OMiniProvider

/-- Embeds the whitespace-splitting helper used by the word-count token
estimates, Python `str.split()` with no argument: maximal non-whitespace
runs, no empty pieces.  The accumulator carries the current run reversed. -/
def pySplitGo : List Char → List Char → List (List Char)
  | [], cur => if cur = [] then [] else [cur.reverse]
  | c :: rest, cur =>
    if c.isWhitespace then
      if cur = [] then pySplitGo rest [] else cur.reverse :: pySplitGo rest []
    else pySplitGo rest (c :: cur)

/-- Python `str.split()` with no argument. -/
def pySplit (s : List Char) : List (List Char) := pySplitGo s []

namespace SimulationProvider

/-- Embeds `SimulationProvider.generate_response`
(`world_listening_ja.py` lines 924-960).  The canned-response selection
(`random.choice` from the per-species pattern table, or the generic
keyword-keyed f-string fallback) is the already-chosen `chosen` argument;
the fixed `time.sleep(0.1)` latency emulation does not affect the record.
The response is capped at 100 characters exactly as in the live provider;
token counts are word-count estimates and the cost is always zero. -/
def generate_response (tracker : CostTracker) (chosen : List Char) (question : List Char) :
    GenResult × CostTracker :=
  let response :=
    if 100 < chosen.length then chosen.take 97 ++ ['.', '.', '.'] else chosen
  let input_tokens := (pySplit question).length + 100
  let output_tokens := (pySplit response).length * 2
  ({ success := true
     text := response
     input_tokens := input_tokens
     output_tokens := output_tokens
     cost_usd := 0
     error := none },
    tracker.add_usage input_tokens output_tokens)

end SimulationProvider

/-- Texts truncated by the shared `[:97] + "..."` idiom have length exactly
100 and end in the three-dot marker. -/
theorem truncated_bounded (s : List Char) (h : 100 < s.length) :
    (s.take 97 ++ ['.', '.', '.']).length ≤ 100 ∧
    ['.', '.', '.'] <:+ (s.take 97 ++ ['.', '.', '.']) := by
  constructor
  · simp only [List.length_append, List.length_take, List.length_cons, List.length_nil]
    omega
  · exact ⟨s.take 97, rfl⟩

/-- C5: whenever a live-provider call fails — the external call raised an
exception with message `e` — each of `generate_response`,
`summarize_search_results` and `analyze_responses` returns a record with
`success = false`, `output_tokens = 0`, `input_tokens` equal to the token
count of the attempted prompt, still adds exactly that input usage (with
zero output tokens) to the cost tracker, and embeds the failure reason in
the record's text field truncated to its first 50 characters; each branch
returns a record, so the failure is never propagated as an exception. -/
theorem provider_failure_contract (tracker : CostTracker) (prompt e : List Char) :
    ((GPT4OMiniProvider.generate_response tracker prompt (.error e)).1.success = false ∧
      (GPT4OMiniProvider.generate_response tracker prompt (.error e)).1.output_tokens = 0 ∧
      (GPT4OMiniProvider.generate_response tracker prompt (.error e)).1.input_tokens =
        count_tokens prompt ∧
      (GPT4OMiniProvider.generate_response tracker prompt (.error e)).2 =
        tracker.add_usage (count_tokens prompt) 0 ∧
      (GPT4OMiniProvider.generate_response tracker prompt (.error e)).1.text =
        "APIエラー: ".toList ++ e.take 50 ++ ['.', '.', '.']) ∧
    ((GPT4OMiniProvider.summarize_search_results tracker prompt (.error e)).1.success = false ∧
      (GPT4OMiniProvider.summarize_search_results tracker prompt (.error e)).1.output_tokens = 0 ∧
      (GPT4OMiniProvider.summarize_search_results tracker prompt (.error e)).1.input_tokens =
        count_tokens prompt ∧
      (GPT4OMiniProvider.summarize_search_results tracker prompt (.error e)).2 =
        tracker.add_usage (count_tokens prompt) 0 ∧
      (GPT4OMiniProvider.summarize_search_results tracker prompt (.error e)).1.text =
        "要約エラー: ".toList ++ e.take 50 ++ ['.', '.', '.']) ∧
    ((GPT4OMiniProvider.analyze_responses tracker prompt (.error e)).1.success = false ∧
      (GPT4OMiniProvider.analyze_responses tracker prompt (.error e)).1.output_tokens = 0 ∧
      (GPT4OMiniProvider.analyze_responses tracker prompt (.error e)).1.input_tokens =
        count_tokens prompt ∧
      (GPT4OMiniProvider.analyze_responses tracker prompt (.error e)).2 =
        tracker.add_usage (count_tokens prompt) 0 ∧
      (GPT4OMiniProvider.analyze_responses tracker prompt (.error e)).1.text =
        "分析エラー: ".toList ++ e.take 50 ++ ['.', '.', '.']) :=
  ⟨⟨rfl, rfl, rfl, rfl, rfl⟩, ⟨rfl, rfl, rfl, rfl, rfl⟩, ⟨rfl, rfl, rfl, rfl, rfl⟩⟩

/-- C6: for both persona-response generate operations, if the underlying
source text (the stripped model output for the live provider, the chosen
canned response for the simulated one) is longer than 100 characters, the
stored response text has length at most 100 and ends with the truncation
marker `...`. -/
theorem response_text_truncated :
    (∀ (tracker : CostTracker) (prompt raw : List Char), 100 < (pyStrip raw).length →
      ((GPT4OMiniProvider.generate_response tracker prompt (.ok raw)).1.text.length ≤ 100 ∧
        ['.', '.', '.'] <:+
          (GPT4OMiniProvider.generate_response tracker prompt (.ok raw)).1.text)) ∧
    (∀ (tracker : CostTracker) (chosen question : List Char), 100 < chosen.length →
      ((SimulationProvider.generate_response tracker chosen question).1.text.length ≤ 100 ∧
        ['.', '.', '.'] <:+
          (SimulationProvider.generate_response tracker chosen question).1.text)) := by
  constructor
  · intro tracker prompt raw h
    have htext : (GPT4OMiniProvider.generate_response tracker prompt (.ok raw)).1.text =
        (pyStrip raw).take 97 ++ ['.', '.', '.'] := by
      simp [GPT4OMiniProvider.generate_response, if_pos h]
    rw [htext]
    exact truncated_bounded _ h
  · intro tracker chosen question h
    have htext : (SimulationProvider.generate_response tracker chosen question).1.text =
        chosen.take 97 ++ ['.', '.', '.'] := by
      simp [SimulationProvider.generate_response, if_pos h]
    rw [htext]
    exact truncated_bounded _ h

/-- C6 witness: concrete instances of both halves of
`response_text_truncated` on 101-character texts. -/
theorem response_text_truncated_witness :
    (100 < (pyStrip (List.replicate 101 'a')).length ∧
      ((GPT4OMiniProvider.generate_response CostTracker.init []
          (.ok (List.replicate 101 'a'))).1.text.length ≤ 100 ∧
        ['.', '.', '.'] <:+
          (GPT4OMiniProvider.generate_response CostTracker.init []
            (.ok (List.replicate 101 'a'))).1.text)) ∧
    (100 < (List.replicate 101 'b').length ∧
      ((SimulationProvider.generate_response CostTracker.init
          (List.replicate 101 'b') []).1.text.length ≤ 100 ∧
        ['.', '.', '.'] <:+
          (SimulationProvider.generate_response CostTracker.init
            (List.replicate 101 'b') []).1.text)) :=
  ⟨⟨by decide, response_text_truncated.1 CostTracker.init [] (List.replicate 101 'a') (by decide)⟩,
   ⟨by decide, response_text_truncated.2 CostTracker.init (List.replicate 101 'b') [] (by decide)⟩⟩

/-! ### Survey orchestration

Embedding of the response-collection loop of `execute_enhanced_survey`
(`app.py` lines 1544-1561; `execute_species_survey`,
`world_listening_ja.py` lines 1838-1857, runs the identical loop
synchronously).  Only the persona's `id` and the embedded dict itself are
read by the loop, so the persona record carries the id; the provider call is
the function argument (its per-persona outcome already folded in), and
`datetime.now()` is the `clock` argument indexed by iteration. -/

structure Persona where
  id : Nat
deriving DecidableEq

/-- One element of the `responses` list built by the loop. -/
structure SurveyRecord where
  persona_id : Nat
  persona : Persona
  question : List Char
  response : List Char
  success : Bool
  cost_usd : ℚ
  timestamp : Nat
  context_used : Bool
deriving DecidableEq

/-- Embeds the `for i, persona in enumerate(personas)` loop body: call the
provider, wrap the result into a record
`{'persona_id', 'persona', 'question', 'response', 'success', 'cost_usd',
'timestamp', 'context_used'}`, append, continue with the next persona
whatever the `success` flag was. -/
def surveyGo (provider : Persona → GenResult) (question context_info : List Char)
    (clock : Nat → Nat) : Nat → List Persona → List SurveyRecord
  | _, [] => []
  | i, p :: rest =>
    let result := provider p
    { persona_id := p.id
      persona := p
      question := question
      response := result.text
      success := result.success
      cost_usd := result.cost_usd
      timestamp := clock i
      context_used := !context_info.isEmpty } ::
      surveyGo provider question context_info clock (i + 1) rest

/-- Embeds the survey execution over the whole persona list. -/
def execute_enhanced_survey (provider : Persona → GenResult) (personas : List Persona)
    (question context_info : List Char) (clock : Nat → Nat) : List SurveyRecord :=
  surveyGo provider question context_info clock 0 personas

/-- Embeds `successful_count = len([r for r in responses if r['success']])`. -/
def successful_count (records : List SurveyRecord) : Nat :=
  (records.filter (·.success)).length

/-- The loop yields one record per persona in order, with the provider's
success flag copied unchanged, for every starting index. -/
theorem surveyGo_spec (provider : Persona → GenResult) (question context_info : List Char)
    (clock : Nat → Nat) (personas : List Persona) : ∀ i : Nat,
    (surveyGo provider question context_info clock i personas).length = personas.length ∧
    (surveyGo provider question context_info clock i personas).map (·.persona_id) =
      personas.map (·.id) ∧
    (surveyGo provider question context_info clock i personas).map (·.success) =
      personas.map (fun p => (provider p).success) ∧
    ((surveyGo provider question context_info clock i personas).filter (·.success)).length =
      (personas.filter (fun p => (provider p).success)).length := by
  induction personas with
  | nil => intro i; simp [surveyGo]
  | cons p rest ih =>
    intro i
    obtain ⟨h1, h2, h3, h4⟩ := ih (i + 1)
    simp only [surveyGo, List.length_cons, List.map_cons, List.filter_cons]
    refine ⟨by rw [h1], by rw [h2], by rw [h3], ?_⟩
    by_cases hs : (provider p).success
    · simp [hs, h4]
    · simp [hs, h4]

/-- C7: given an ordered list of personas the survey loop produces exactly
one response record per persona, in persona order (the record ids are the
persona ids in order); a provider result with `success = false` still
yields its record in place — the flags stored are exactly the per-persona
provider flags, so a failure never stops the loop — and the reported
successful count equals the number of records with `success = true` (which
equals the number of personas whose provider call succeeded). -/
theorem survey_loop_contract (provider : Persona → GenResult) (personas : List Persona)
    (question context_info : List Char) (clock : Nat → Nat) :
    (execute_enhanced_survey provider personas question context_info clock).length =
      personas.length ∧
    (execute_enhanced_survey provider personas question context_info clock).map
      (·.persona_id) = personas.map (·.id) ∧
    (execute_enhanced_survey provider personas question context_info clock).map
      (·.success) = personas.map (fun p => (provider p).success) ∧
    successful_count (execute_enhanced_survey provider personas question context_info clock) =
      (personas.filter (fun p => (provider p).success)).length :=
  surveyGo_spec provider question context_info clock personas 0

/-! ### Response analyzer

Embedding of `ResponseAnalyzer.analyze_sentiment` (`app.py` lines 509-531;
the `world_listening_ja.py` copy at lines 866-884 differs only in its
lexicon constants). -/

/-- Embeds Python `str.count(sub)`: the number of non-overlapping
occurrences of `sub`, scanning left to right (all lexicon words passed to
it are non-empty). -/
def countOccs (sub : List Char) (s : List Char) : Nat :=
  if hs : s = [] then 0
  else if h : sub ≠ [] ∧ sub.isPrefixOf s then
    countOccs sub (s.drop sub.length) + 1
  else
    countOccs sub s.tail
termination_by s.length
decreasing_by
  · have h1 : 0 < sub.length := List.length_pos.mpr h.1
    have h2 : 0 < s.length := List.length_pos.mpr hs
    simp only [List.length_drop]
    omega
  · have h2 : 0 < s.length := List.length_pos.mpr hs
    simp only [List.length_tail]
    omega

/-- The positive lexicon `['良い', '期待', '希望', '賛成', '支持']`. -/
def positive_words : List (List Char) :=
  ["良い".toList, "期待".toList, "希望".toList, "賛成".toList, "支持".toList]

/-- The negative lexicon `['悪い', '不安', '心配', '反対', '問題']`. -/
def negative_words : List (List Char) :=
  ["悪い".toList, "不安".toList, "心配".toList, "反対".toList, "問題".toList]

/-- Embeds `sum(response.count(word) for word in words)`: the per-word
occurrence counts summed over the word list. -/
def sentiment_score : List (List Char) → List Char → Nat
  | [], _ => 0
  | w :: ws, response => countOccs w response + sentiment_score ws response

/-- One iteration of the classification loop over `(positive_count,
negative_count, neutral_count)`: `if pos_score > neg_score` increment
positive, `elif neg_score > pos_score` increment negative, else neutral. -/
def sentStep (counts : Nat × Nat × Nat) (response : List Char) : Nat × Nat × Nat :=
  let pos_score := sentiment_score positive_words response
  let neg_score := sentiment_score negative_words response
  if neg_score < pos_score then (counts.1 + 1, counts.2.1, counts.2.2)
  else if pos_score < neg_score then (counts.1, counts.2.1 + 1, counts.2.2)
  else (counts.1, counts.2.1, counts.2.2 + 1)

/-- The returned dict `{'positive', 'negative', 'neutral'}` of percentages. -/
structure SentimentResult where
  positive : ℚ
  negative : ℚ
  neutral : ℚ
deriving DecidableEq

/-- Embeds `ResponseAnalyzer.analyze_sentiment`: run the classification loop,
then return `count / total * 100` for each class with `total =
len(responses)`.  For the empty corpus the division `positive_count / total`
raises `ZeroDivisionError`, embedded as `none`. -/
def analyze_sentiment (responses : List (List Char)) : Option SentimentResult :=
  let counts := responses.foldl sentStep (0, 0, 0)
  let total := responses.length
  if total = 0 then none
  else
    some { positive := (counts.1 : ℚ) / total * 100
           negative := (counts.2.1 : ℚ) / total * 100
           neutral := (counts.2.2 : ℚ) / total * 100 }

/-- Classification from the claim's words: positive exactly when the total
substring occurrences of positive-lexicon words strictly exceed those of the
negative lexicon. -/
def classifiedPositive (response : List Char) : Bool :=
  decide (sentiment_score negative_words response < sentiment_score positive_words response)

/-- Classification from the claim's words: negative exactly when the
negative-lexicon total strictly exceeds the positive one. -/
def classifiedNegative (response : List Char) : Bool :=
  decide (sentiment_score positive_words response < sentiment_score negative_words response)

/-- Classification from the claim's words: neutral otherwise. -/
def classifiedNeutral (response : List Char) : Bool :=
  !(classifiedPositive response) && !(classifiedNegative response)

/-- The classification loop counts exactly the three claim-level classes. -/
theorem sentFold_counts (responses : List (List Char)) : ∀ p n u : Nat,
    responses.foldl sentStep (p, n, u) =
      (p + responses.countP classifiedPositive,
       n + responses.countP classifiedNegative,
       u + responses.countP classifiedNeutral) := by
  induction responses with
  | nil => intro p n u; simp
  | cons r rest ih =>
    intro p n u
    simp only [List.foldl_cons, List.countP_cons, sentStep]
    by_cases hp : sentiment_score negative_words r < sentiment_score positive_words r
    · have hp' : classifiedPositive r = true := by
        simp [classifiedPositive, hp]
      have hn' : classifiedNegative r = false := by
        simp only [classifiedNegative, decide_eq_false_iff_not]
        omega
      have hu' : classifiedNeutral r = false := by
        simp [classifiedNeutral, hp', hn']
      rw [if_pos hp, ih]
      simp only [hp', hn', hu']
      refine Prod.ext ?_ (Prod.ext ?_ ?_) <;> (simp; try omega)
    · by_cases hn : sentiment_score positive_words r < sentiment_score negative_words r
      · have hp' : classifiedPositive r = false := by
          simp only [classifiedPositive, decide_eq_false_iff_not]
          omega
        have hn' : classifiedNegative r = true := by
          simp [classifiedNegative, hn]
        have hu' : classifiedNeutral r = false := by
          simp [classifiedNeutral, hp', hn']
        rw [if_neg hp, if_pos hn, ih]
        simp only [hp', hn', hu']
        refine Prod.ext ?_ (Prod.ext ?_ ?_) <;> (simp; try omega)
      · have hp' : classifiedPositive r = false := by
          simp only [classifiedPositive, decide_eq_false_iff_not]
          omega
        have hn' : classifiedNegative r = false := by
          simp only [classifiedNegative, decide_eq_false_iff_not]
          omega
        have hu' : classifiedNeutral r = true := by
          simp [classifiedNeutral, hp', hn']
        rw [if_neg hp, if_neg hn, ih]
        simp only [hp', hn', hu']
        refine Prod.ext ?_ (Prod.ext ?_ ?_) <;> (simp; try omega)

/-- C8: on a non-empty corpus `analyze_sentiment` classifies a response
positive exactly when the total substring occurrences of positive-lexicon
words strictly exceed the negative-lexicon total, negative exactly in the
reverse case, neutral otherwise, and returns each class as
`(class count / total response count) * 100`, the three raw percentages not
re-normalized. -/
theorem analyze_sentiment_spec (responses : List (List Char)) (hne : responses ≠ []) :
    analyze_sentiment responses = some
      { positive := (responses.countP classifiedPositive : ℚ) / responses.length * 100
        negative := (responses.countP classifiedNegative : ℚ) / responses.length * 100
        neutral := (responses.countP classifiedNeutral : ℚ) / responses.length * 100 } := by
  have hlen : responses.length ≠ 0 := fun h => hne (List.length_eq_zero.mp h)
  simp only [analyze_sentiment, sentFold_counts responses 0 0 0, Nat.zero_add, if_neg hlen]

set_option maxRecDepth 4000 in
/-- C8 witness: concrete instance of `analyze_sentiment_spec` on a corpus of
one net-positive, one net-negative and one neutral response, giving one
third (≈33.3%) to each class. -/
theorem analyze_sentiment_spec_witness :
    (["良い".toList, "悪い".toList, "まあまあ".toList] : List (List Char)) ≠ [] ∧
    analyze_sentiment ["良い".toList, "悪い".toList, "まあまあ".toList] =
      some { positive := (1 : ℚ) / 3 * 100
             negative := (1 : ℚ) / 3 * 100
             neutral := (1 : ℚ) / 3 * 100 } := by
  have hcp : (["良い".toList, "悪い".toList, "まあまあ".toList].countP classifiedPositive) = 1 := by
    simp [List.countP_cons, classifiedPositive, sentiment_score, positive_words,
      negative_words, countOccs]
  have hcn : (["良い".toList, "悪い".toList, "まあまあ".toList].countP classifiedNegative) = 1 := by
    simp [List.countP_cons, classifiedNegative, sentiment_score, positive_words,
      negative_words, countOccs]
  have hcu : (["良い".toList, "悪い".toList, "まあまあ".toList].countP classifiedNeutral) = 1 := by
    simp [List.countP_cons, classifiedNeutral, classifiedPositive, classifiedNegative,
      sentiment_score, positive_words, negative_words, countOccs]
  refine ⟨by decide, ?_⟩
  rw [analyze_sentiment_spec _ (by decide), hcp, hcn, hcu]
  norm_num

/-- C10: `analyze_sentiment` is not total at the public interface: on the
empty response list the divisions by `total = len(responses) = 0` raise
`ZeroDivisionError` (the embedded error branch `none` is reached), so no
percentage result is returned for an empty corpus, while every non-empty
corpus does produce a result. -/
theorem analyze_sentiment_empty_crash :
    analyze_sentiment [] = none ∧
    ∀ responses : List (List Char), responses ≠ [] → (analyze_sentiment responses).isSome := by
  refine ⟨rfl, ?_⟩
  intro responses hne
  have hlen : responses.length ≠ 0 := fun h => hne (List.length_eq_zero.mp h)
  simp only [analyze_sentiment, if_neg hlen, Option.isSome_some]

/-- C10 witness: concrete instance of `analyze_sentiment_empty_crash` on a
one-response corpus. -/
theorem analyze_sentiment_empty_crash_witness :
    (([['a']] : List (List Char)) ≠ []) ∧ (analyze_sentiment [['a']]).isSome :=
  ⟨by decide, analyze_sentiment_empty_crash.2 [['a']] (by decide)⟩

end SocialListening
